import Mathlib

/-!
Verification of the OpenAPI-documentation synthesizer of the blog-ts-v2
repository against its natural-language specification.

The development shallowly embeds the two source modules of the subsystem:

* `scripts/lib/route-parser.ts`  — comment-block reading, route-line
  extraction and comment semantics (functions `parseRouteFile`,
  `parseRouteLine`, `parseComment`, `extractRoutePrefix`,
  `extractTagsFromFileName`, `extractRequiredRoles`, `extractHandlerName`,
  `extractDefaultValue`, `extractEnumValues`);
* `scripts/lib/openapi-generator.ts` — document synthesis (functions
  `generateOpenAPISpec`, `groupRoutesByTag`, `generateTags`,
  `generatePaths`, `generateOperation`, `generateOperationId`,
  `generateParametersFromRoute`, `generateRequestBody`,
  `generateResponsesFromRoute`, `generateResponseSchema`,
  `generateExamples`, `mapTypeToOpenAPI`, `generateSchemas`,
  `generateParameters`).

JavaScript strings are Lean `String`s; the specific regular expressions used
by the source are modelled by dedicated left-to-right scanners that replicate
the leftmost-match semantics of the corresponding pattern on the inputs the
source applies them to (each scanner documents its pattern).  JavaScript
records (insertion-ordered objects) are association lists, and assignment to
an object key is an in-place update / append ("upsert").  Single quotes and
curly braces inside embedded source text are written with hexadecimal string
escapes.
-/

namespace Blog

/-! ## JavaScript string primitives -/

/-- Boolean prefix test on character lists (needle first). -/
def isPrefixList : List Char → List Char → Bool
  | [], _ => true
  | _ :: _, [] => false
  | a :: as, b :: bs => a = b && isPrefixList as bs

/-- Substring containment of `needle` in `hay`; models JavaScript
`hay.includes(needle)` (case-sensitive). -/
def containsSub (needle : List Char) : List Char → Bool
  | [] => isPrefixList needle []
  | c :: rest => isPrefixList needle (c :: rest) || containsSub needle rest

/-- JavaScript `s.includes(sub)`. -/
def jsIncludes (s sub : String) : Bool :=
  containsSub sub.data s.data

/-- JavaScript whitespace class (trim and the regex whitespace class). -/
def jsWsChar (c : Char) : Bool := c.isWhitespace

/-- Whitespace trim on character lists. -/
def trimList (l : List Char) : List Char :=
  ((l.dropWhile jsWsChar).reverse.dropWhile jsWsChar).reverse

/-- JavaScript `s.trim()`. -/
def trimStr (s : String) : String :=
  String.mk (trimList s.data)

/-- JavaScript `s.startsWith(p)`. -/
def startsWithStr (s p : String) : Bool :=
  isPrefixList p.data s.data

/-- JavaScript `s.endsWith(p)`. -/
def endsWithStr (s p : String) : Bool :=
  isPrefixList p.data.reverse s.data.reverse

/-- JavaScript `s.toLowerCase()` (ASCII, which is all the source lower-cases). -/
def toLowerStr (s : String) : String :=
  String.mk (s.data.map Char.toLower)

/-- JavaScript `s.toUpperCase()` (ASCII, which is all the source upper-cases). -/
def toUpperStr (s : String) : String :=
  String.mk (s.data.map Char.toUpper)

/-- JavaScript `s.slice(n)` for a non-negative character count. -/
def dropStr (s : String) (n : Nat) : String :=
  String.mk (s.data.drop n)

/-- Removal of the last `n` characters (the negative end index of slice). -/
def dropRightStr (s : String) (n : Nat) : String :=
  String.mk (s.data.take (s.data.length - n))

/-- Split on one separator character; every JavaScript split performed by the
source uses a one-character separator. -/
def splitOnCharList (sep : Char) : List Char → List (List Char)
  | [] => [[]]
  | c :: rest =>
      if c = sep then [] :: splitOnCharList sep rest
      else
        match splitOnCharList sep rest with
        | [] => [[c]]
        | h :: t => (c :: h) :: t

/-- JavaScript `s.split(sep)` with a one-character separator. -/
def splitStrChar (sep : Char) (s : String) : List String :=
  (splitOnCharList sep s.data).map String.mk

/-- JavaScript `parts.join(sep)`. -/
def joinSep (sep : String) : List String → String
  | [] => ""
  | [x] => x
  | x :: y :: t => x ++ sep ++ joinSep sep (y :: t)

/-- JavaScript `parts.join(empty)`. -/
def joinAll (l : List String) : String :=
  l.foldl (fun acc x => acc ++ x) ""

/-- JavaScript `s.charAt(0).toUpperCase() + s.slice(1)` (empty string maps to
the empty string). -/
def upperFirstStr (s : String) : String :=
  match s.data with
  | [] => ""
  | c :: cs => String.mk (Char.toUpper c :: cs)

/-- First-occurrence replacement on character lists; models the JavaScript
string method `replace(pat, rep)` with a (non-empty) string pattern. -/
def replaceFirstList : List Char → List Char → List Char → List Char
  | [], pat, rep => if isPrefixList pat [] then rep else []
  | c :: rest, pat, rep =>
      if isPrefixList pat (c :: rest) then rep ++ List.drop pat.length (c :: rest)
      else c :: replaceFirstList rest pat rep

/-- JavaScript `s.replace(pat, rep)` (first occurrence only). -/
def replaceFirstStr (s pat rep : String) : String :=
  String.mk (replaceFirstList s.data pat.data rep.data)

/-- JavaScript whitespace class for the source's regular expressions. -/
def jsWs (c : Char) : Bool := jsWsChar c

/-- JavaScript word-character class for the source's regular expressions. -/
def isWordChar (c : Char) : Bool := c.isAlpha || c.isDigit || c = '_'

/-- Either ASCII quote character, the class used by the authorize patterns. -/
def isQuote (c : Char) : Bool := c = '\x27' || c = '"'

/-- Models `s.split(sep-with-one-comma).map(trim)`: the source splits role
lists with a comma pattern that also eats surrounding whitespace and then
trims every piece, which coincides with splitting on the bare comma and
trimming every piece. -/
def splitCommaTrim (s : String) : List String :=
  (splitStrChar ',' s).map trimStr

/-- Order-preserving de-duplication; models spreading a JavaScript `Set`
built from an array (first occurrence wins, insertion order kept). -/
def dedupFirst (l : List String) : List String :=
  l.foldl (fun acc x => if x ∈ acc then acc else acc ++ [x]) []

/-- Indexed map, used for the camel-casing of path segments. -/
def mapWithIdxAux {α β : Type} (f : Nat → α → β) : Nat → List α → List β
  | _, [] => []
  | i, a :: as => f i a :: mapWithIdxAux f (i + 1) as

def mapWithIdx {α β : Type} (f : Nat → α → β) (l : List α) : List β :=
  mapWithIdxAux f 0 l

/-- Association-list lookup with decidable string keys (first match). -/
def lookupKV {α : Type} : List (String × α) → String → Option α
  | [], _ => none
  | (k, v) :: rest, key => if k = key then some v else lookupKV rest key

/-- In-place update or append; models assignment `obj[key] = v` on a
JavaScript insertion-ordered object. -/
def upsertKV {α : Type} : List (String × α) → String → α → List (String × α)
  | [], key, v => [(key, v)]
  | (k, w) :: rest, key, v =>
      if k = key then (key, v) :: rest else (k, w) :: upsertKV rest key v

/-- Left-to-right scan driver: tries the position matcher `f` at every
suffix, leftmost success first — the search behaviour of an unanchored
JavaScript regular expression. -/
def scanOpt {α : Type} (f : List Char → Option α) : List Char → Option α
  | [] => f []
  | c :: rest =>
    match f (c :: rest) with
    | some r => some r
    | none => scanOpt f rest

/-! ## Position matchers for the source's regular expressions

Each matcher checks one pattern at the head of the character list; driven by
`scanOpt` it realises the leftmost match of the unanchored pattern. -/

/-- Verb alternatives of the method pattern, tried in source order. -/
def tryVerbs (rest : List Char) : Option String :=
  if isPrefixList "get(".data rest then some "get"
  else if isPrefixList "post(".data rest then some "post"
  else if isPrefixList "put(".data rest then some "put"
  else if isPrefixList "patch(".data rest then some "patch"
  else if isPrefixList "delete(".data rest then some "delete"
  else none

/-- Pattern `router\.(get|post|put|patch|delete)\(` at one position. -/
def matchVerbAt (l : List Char) : Option String :=
  if isPrefixList "router.".data l then tryVerbs (l.drop 7) else none

/-- Pattern for the first string-literal argument at one position:
an opening parenthesis, a single quote, one or more non-quote characters
(captured), and a closing single quote. -/
def matchPathAt (l : List Char) : Option String :=
  match l with
  | '(' :: '\x27' :: tail =>
      let run := tail.takeWhile (fun c => c ≠ '\x27')
      if run.isEmpty then none
      else if (tail.dropWhile (fun c => c ≠ '\x27')).isEmpty then none
      else some (String.mk run)
  | _ => none

/-- Pattern `\.bind\((\w+)\)` at one position. -/
def matchBindAt (l : List Char) : Option String :=
  if isPrefixList ".bind(".data l then
    let t := l.drop 6
    let run := t.takeWhile isWordChar
    match t.dropWhile isWordChar with
    | ')' :: _ => if run.isEmpty then none else some (String.mk run)
    | _ => none
  else none

/-- Pattern `\(req,\s*res` at one position (inline handler signature). -/
def matchReqResAt (l : List Char) : Option Unit :=
  if isPrefixList "(req,".data l then
    if isPrefixList "res".data ((l.drop 5).dropWhile jsWs) then some () else none
  else none

/-- Single-argument authorize pattern at one position: literal
`authorize(`, a quote, one or more non-quote characters (captured), a quote,
and a closing parenthesis immediately after. -/
def matchAuthSimpleAt (l : List Char) : Option String :=
  if isPrefixList "authorize(".data l then
    match l.drop 10 with
    | q :: t2 =>
        if isQuote q then
          let run := t2.takeWhile (fun c => ¬ isQuote c)
          match t2.dropWhile (fun c => ¬ isQuote c) with
          | _ :: ')' :: _ => if run.isEmpty then none else some (String.mk run)
          | _ => none
        else none
    | [] => none
  else none

/-- Repetition tail of the multi-argument authorize pattern: zero or more
groups of comma, optional whitespace and a quoted token, then a closing
parenthesis.  Returns the capture of the last iteration, if any — exactly
what a repeated capturing group reports in JavaScript.  The fuel argument
only bounds the structural recursion. -/
def multiTail : Nat → List Char → Option String → Option (Option String)
  | 0, _, _ => none
  | _ + 1, ')' :: _, last => some last
  | fuel + 1, ',' :: rest, _ =>
      (match rest.dropWhile jsWs with
       | q :: r2 =>
           if isQuote q then
             let run := r2.takeWhile (fun c => ¬ isQuote c)
             match r2.dropWhile (fun c => ¬ isQuote c) with
             | _ :: r4 =>
                 if run.isEmpty then none
                 else multiTail fuel r4 (some (String.mk run))
             | [] => none
           else none
       | [] => none)
  | _ + 1, _, _ => none

/-- Multi-argument authorize pattern at one position: literal `authorize(`, a
quoted token (first capture), zero or more further comma-separated quoted
tokens (second capture = last iteration), and a closing parenthesis. -/
def matchAuthMultiAt (l : List Char) : Option (String × Option String) :=
  if isPrefixList "authorize(".data l then
    match l.drop 10 with
    | q :: t2 =>
        if isQuote q then
          let run := t2.takeWhile (fun c => ¬ isQuote c)
          match t2.dropWhile (fun c => ¬ isQuote c) with
          | _ :: r =>
              if run.isEmpty then none
              else
                match multiTail (r.length + 1) r none with
                | some last => some (String.mk run, last)
                | none => none
          | [] => none
        else none
    | [] => none
  else none

/-- Parameter-tag pattern at one position: literal `@param`, whitespace, a
braced type (captured), whitespace, a word name (captured), whitespace, and
the non-empty remainder of the line (captured free text).  The source applies
it to a trimmed single line, so the remainder never consists of whitespace
alone. -/
def matchParamAt (l : List Char) : Option (String × String × String) :=
  if isPrefixList "@param".data l then
    let t1 := l.drop 6
    if (t1.takeWhile jsWs).isEmpty then none
    else
      match t1.dropWhile jsWs with
      | '\x7b' :: t3 =>
          let ty := t3.takeWhile (fun c => c ≠ '\x7d')
          if ty.isEmpty then none
          else
            match t3.dropWhile (fun c => c ≠ '\x7d') with
            | '\x7d' :: t5 =>
                if (t5.takeWhile jsWs).isEmpty then none
                else
                  let t6 := t5.dropWhile jsWs
                  let nm := t6.takeWhile isWordChar
                  if nm.isEmpty then none
                  else
                    let t7 := t6.dropWhile isWordChar
                    if (t7.takeWhile jsWs).isEmpty then none
                    else
                      let t8 := t7.dropWhile jsWs
                      if t8.isEmpty then none
                      else some (String.mk ty, String.mk nm, String.mk t8)
            | _ => none
      | _ => none
  else none

/-- Request-body tag pattern at one position: literal `@requestBody`,
whitespace, and a braced type name (captured). -/
def matchReqBodyAt (l : List Char) : Option String :=
  if isPrefixList "@requestBody".data l then
    let t1 := l.drop 12
    if (t1.takeWhile jsWs).isEmpty then none
    else
      match t1.dropWhile jsWs with
      | '\x7b' :: t3 =>
          let ty := t3.takeWhile (fun c => c ≠ '\x7d')
          if ty.isEmpty then none
          else
            match t3.dropWhile (fun c => c ≠ '\x7d') with
            | '\x7d' :: _ => some (String.mk ty)
            | _ => none
      | _ => none
  else none

/-- Bare brace-group pattern at one position: an opening brace, one or more
non-closing-brace characters (captured), and a closing brace. -/
def matchBraceAt (l : List Char) : Option String :=
  match l with
  | '\x7b' :: t =>
      let run := t.takeWhile (fun c => c ≠ '\x7d')
      if run.isEmpty then none
      else
        match t.dropWhile (fun c => c ≠ '\x7d') with
        | '\x7d' :: _ => some (String.mk run)
        | _ => none
  | _ => none

/-- Default-value pattern at one position: the Chinese word for default, a
full- or half-width colon, optional whitespace, and a maximal non-empty run
of characters that are not whitespace or a comma of either width
(captured). -/
def matchDefaultAt (l : List Char) : Option String :=
  if isPrefixList "默认".data l then
    match l.drop 2 with
    | c :: t2 =>
        if c = '：' || c = ':' then
          let t3 := t2.dropWhile jsWs
          let run := t3.takeWhile (fun ch => ¬ (jsWs ch || ch = ',' || ch = '，'))
          if run.isEmpty then none else some (String.mk run)
        else none
    | [] => none
  else none

/-- Enumeration pattern at one position: the Chinese word for enumeration, a
colon of either width, optional whitespace, and a bracketed non-empty list
body (captured). -/
def matchEnumAt (l : List Char) : Option String :=
  if isPrefixList "枚举".data l then
    match l.drop 2 with
    | c :: t2 =>
        if c = '：' || c = ':' then
          match t2.dropWhile jsWs with
          | '[' :: t4 =>
              let run := t4.takeWhile (fun ch => ch ≠ ']')
              if run.isEmpty then none
              else
                match t4.dropWhile (fun ch => ch ≠ ']') with
                | ']' :: _ => some (String.mk run)
                | _ => none
          | _ => none
        else none
    | [] => none
  else none

/-- Route-prefix pattern at one position: the Chinese words for route prefix,
a colon of either width, optional whitespace, and a maximal non-empty run of
non-whitespace characters (captured). -/
def matchPrefixValueAt (l : List Char) : Option String :=
  if isPrefixList "路由前缀".data l then
    match l.drop 4 with
    | c :: t2 =>
        if c = '：' || c = ':' then
          let t3 := t2.dropWhile jsWs
          let run := t3.takeWhile (fun ch => ¬ jsWs ch)
          if run.isEmpty then none else some (String.mk run)
        else none
    | [] => none
  else none

/-! ## Route-parser data model (interfaces of route-parser.ts) -/

/-- Interface `QueryParam` of route-parser.ts. -/
structure QueryParam where
  name : String
  type : String
  description : String
  required : Bool
  defaultValue : Option String
  enum : Option (List String)
deriving DecidableEq, Repr

/-- Interface `PathParam` of route-parser.ts. -/
structure PathParam where
  name : String
  type : String
  description : String
deriving DecidableEq, Repr

/-- Interface `RouteInfo` of route-parser.ts.  The source's `prefix` field is
called `prefixValue` here. -/
structure RouteInfo where
  path : String
  method : String
  description : String
  summary : String
  requiresAuth : Bool
  requiredRoles : List String
  requestBodyType : Option String
  responseType : Option String
  queryParams : List QueryParam
  pathParams : List PathParam
  rawComment : String
  handler : Option String
  prefixValue : String
  tags : List String
deriving DecidableEq, Repr

/-- Result of `parseComment`. -/
structure ParsedComment where
  description : String
  summary : String
  queryParams : List QueryParam
  pathParams : List PathParam
  requestBodyType : Option String
  responseType : Option String
deriving DecidableEq, Repr

/-! ## Extraction helpers of route-parser.ts -/

/-- Function `extractDefaultValue` of route-parser.ts. -/
def extractDefaultValue (description : String) : Option String :=
  scanOpt matchDefaultAt description.data

/-- Function `extractEnumValues` of route-parser.ts: finds the bracketed
enumeration body and splits it on commas with surrounding whitespace,
trimming every piece. -/
def extractEnumValues (description : String) : Option (List String) :=
  match scanOpt matchEnumAt description.data with
  | none => none
  | some body => some (splitCommaTrim body)

/-- Function `extractRoutePrefix` of route-parser.ts: reads an explicit
route-prefix annotation from the file text, defaulting to /api/v1. -/
def extractPrefixValue (content : String) : String :=
  match scanOpt matchPrefixValueAt content.data with
  | some p => p
  | none => "/api/v1"

/-- Function `extractTagsFromFileName` of route-parser.ts. -/
def extractTagsFromFileName (fileName : String) : List String :=
  if jsIncludes fileName "user" then ["用户"]
  else if jsIncludes fileName "post" then ["文章"]
  else if jsIncludes fileName "category" then ["分类"]
  else if jsIncludes fileName "tag" then ["标签"]
  else ["其他"]

/-- Function `extractRequiredRoles` of route-parser.ts: collects the captures
of the single-argument authorize pattern and of the multi-argument authorize
pattern (which yields its first group and the last iteration of its repeated
group), splits each on commas, and de-duplicates preserving order. -/
def extractRequiredRoles (line : String) : List String :=
  let roles1 :=
    match scanOpt matchAuthSimpleAt line.data with
    | some s => splitCommaTrim s
    | none => []
  let roles2 :=
    match scanOpt matchAuthMultiAt line.data with
    | some (g1, g2) =>
        splitCommaTrim g1 ++ (match g2 with
          | some s => splitCommaTrim s
          | none => [])
    | none => []
  dedupFirst (roles1 ++ roles2)

/-- Function `extractHandlerName` of route-parser.ts. -/
def extractHandlerName (line : String) : Option String :=
  match scanOpt matchBindAt line.data with
  | some n => some n
  | none =>
      match scanOpt matchReqResAt line.data with
      | some _ => some "匿名函数"
      | none => none

/-! ## Comment semantics (function parseComment of route-parser.ts) -/

/-- The required-flag rule applied to a query parameter's free text: required
when the text mentions a mandatory marker or does not mention the optional
marker. -/
def reqOf (desc : String) : Bool :=
  jsIncludes desc "必须" || jsIncludes desc "必需" || ! jsIncludes desc "可选"

/-- Accumulator of the per-line loop of `parseComment`.  The source also
tracks an `inParamSection` flag that is never read; it is omitted. -/
structure CommentState where
  summaryLines : List String
  descriptionLines : List String
  inDescription : Bool
  queryParams : List QueryParam
  pathParams : List PathParam
  requestBodyType : Option String
  responseType : Option String
deriving Repr

def initCommentState : CommentState :=
  { summaryLines := [], descriptionLines := [], inDescription := false,
    queryParams := [], pathParams := [], requestBodyType := none,
    responseType := none }

/-- The query parameter built from one matched parameter tag. -/
def queryParamOfTag (ty nm desc : String) : QueryParam :=
  { name := replaceFirstStr (replaceFirstStr nm "query." "") "params." "",
    type := ty,
    description := desc,
    required := reqOf desc,
    defaultValue := extractDefaultValue desc,
    enum := extractEnumValues desc }

/-- The path parameter built from one matched parameter tag. -/
def pathParamOfTag (ty nm desc : String) : PathParam :=
  { name := replaceFirstStr (replaceFirstStr nm "path." "") "params." "",
    type := ty,
    description := desc }

/-- The narrative-line check of the comment loop: a leading-asterisk line
with no tag marker extends the description, and the first such line also
becomes the summary. -/
def applyDescLine (st : CommentState) (trimmed : String) : CommentState :=
  if startsWithStr trimmed "* " && ! jsIncludes trimmed "@" then
    let desc := dropStr trimmed 2
    { st with
      summaryLines :=
        if st.inDescription then st.summaryLines else st.summaryLines ++ [desc],
      inDescription := true,
      descriptionLines := st.descriptionLines ++ [desc] }
  else st

/-- The parameter-tag check of the comment loop: a matched tag is classified
as a query parameter by a query hint in the name or free text, else as a path
parameter by a path hint, else skipped. -/
def applyParamTag (st : CommentState) (trimmed : String) : CommentState :=
  if jsIncludes trimmed "@param" then
    match scanOpt matchParamAt trimmed.data with
    | some (ty, nm, desc) =>
        if jsIncludes nm "query" || jsIncludes desc "查询" || jsIncludes desc "参数" then
          { st with queryParams := st.queryParams ++ [queryParamOfTag ty nm desc] }
        else if jsIncludes nm "path" || jsIncludes desc "路径" then
          { st with pathParams := st.pathParams ++ [pathParamOfTag ty nm desc] }
        else st
    | none => st
  else st

/-- The request-body-tag check of the comment loop. -/
def applyReqBodyTag (st : CommentState) (trimmed : String) : CommentState :=
  if jsIncludes trimmed "@requestBody" then
    match scanOpt matchReqBodyAt trimmed.data with
    | some t => { st with requestBodyType := some t }
    | none => st
  else st

/-- The returns-tag check of the comment loop. -/
def applyReturnsTag (st : CommentState) (trimmed : String) : CommentState :=
  if jsIncludes trimmed "@returns" || jsIncludes trimmed "@response" then
    match scanOpt matchBraceAt trimmed.data with
    | some t => { st with responseType := some t }
    | none => st
  else st

/-- One iteration of the line loop of `parseComment`: the comment delimiters
and asterisk-tag lines are skipped outright, every other line passes through
the four sequential checks of the source in order. -/
def commentStep (st : CommentState) (rawLine : String) : CommentState :=
  let trimmed := trimStr rawLine
  if trimmed = "/**" || trimmed = "*/" || startsWithStr trimmed "* @" then st
  else
    applyReturnsTag
      (applyReqBodyTag (applyParamTag (applyDescLine st trimmed) trimmed) trimmed) trimmed

/-- Function `parseComment` of route-parser.ts: the empty comment yields the
all-empty result; otherwise the lines are folded through `commentStep` and
the narrative lines are joined. -/
def parseComment (comment : String) : ParsedComment :=
  if comment = "" then
    { description := "", summary := "", queryParams := [], pathParams := [],
      requestBodyType := none, responseType := none }
  else
    let st := (splitStrChar '\n' comment).foldl commentStep initCommentState
    { description := joinSep "\n" st.descriptionLines,
      summary := (st.summaryLines.head?).getD "",
      queryParams := st.queryParams,
      pathParams := st.pathParams,
      requestBodyType := st.requestBodyType,
      responseType := st.responseType }

/-! ## Route line extraction (function parseRouteLine of route-parser.ts) -/

/-- Function `parseRouteLine` of route-parser.ts.  Returns none when the
method pattern or the quoted-path pattern does not match; otherwise builds
the `RouteInfo` record, substituting the Chinese no-description /
no-summary placeholders for missing narrative text. -/
def parseRouteLine (line comment prefixValue : String) (tags : List String) :
    Option RouteInfo :=
  match scanOpt matchVerbAt line.data with
  | none => none
  | some verb =>
      match scanOpt matchPathAt line.data with
      | none => none
      | some p =>
          let path := if startsWithStr p "/" then p else "/" ++ p
          let pc := parseComment comment
          let descHead := ((splitStrChar '\n' pc.description).head?).getD ""
          some
            { path := path,
              method := toUpperStr verb,
              description := if pc.description = "" then "无描述" else pc.description,
              summary :=
                if pc.summary ≠ "" then pc.summary
                else if descHead ≠ "" then descHead
                else "无摘要",
              requiresAuth := jsIncludes line "authenticate",
              requiredRoles := extractRequiredRoles line,
              requestBodyType := pc.requestBodyType,
              responseType := pc.responseType,
              queryParams := pc.queryParams,
              pathParams := pc.pathParams,
              rawComment := comment,
              handler := extractHandlerName line,
              prefixValue := prefixValue,
              tags := tags }

/-! ## Route file scanning (function parseRouteFile of route-parser.ts) -/

/-- Route-registration detection used by the file loop. -/
def routeLineDetect (line : String) : Bool :=
  jsIncludes line "router." &&
    (jsIncludes line "get(" || jsIncludes line "post(" || jsIncludes line "put(" ||
     jsIncludes line "patch(" || jsIncludes line "delete(")

/-- Scanning mode of the file loop: either looking at ordinary lines with a
pending comment, or inside a multi-line comment block.  The source realises
the collecting mode with an inner while loop that starts on a line whose
trimmed text begins the block marker and consumes raw lines up to and
including the first subsequent line containing the closing marker. -/
inductive ScanMode where
  | normal (pending : String)
  | collecting (acc : String)
deriving Repr

/-- The line loop of `parseRouteFile`. -/
def fileLoop (prefixValue : String) (tags : List String) :
    List String → ScanMode → List RouteInfo
  | [], _ => []
  | l :: ls, ScanMode.collecting acc =>
      if jsIncludes (trimStr l) "*/" then
        fileLoop prefixValue tags ls (ScanMode.normal (acc ++ "\n" ++ l))
      else
        fileLoop prefixValue tags ls (ScanMode.collecting (acc ++ "\n" ++ l))
  | l :: ls, ScanMode.normal pending =>
      let line := trimStr l
      if startsWithStr line "/**" then
        fileLoop prefixValue tags ls (ScanMode.collecting line)
      else if routeLineDetect line then
        match parseRouteLine line pending prefixValue tags with
        | some r => r :: fileLoop prefixValue tags ls (ScanMode.normal "")
        | none => fileLoop prefixValue tags ls (ScanMode.normal "")
      else
        fileLoop prefixValue tags ls (ScanMode.normal pending)

/-- Function `parseRouteFile` of route-parser.ts, over the file's text and
base name instead of its path: extracts the route prefix and the tag family,
splits into lines, and runs the line loop with no pending comment. -/
def parseRouteFileContent (content fileName : String) : List RouteInfo :=
  fileLoop (extractPrefixValue content) (extractTagsFromFileName fileName)
    (splitStrChar '\n' content) (ScanMode.normal "")

/-! ## OpenAPI generator data model (openapi-generator.ts) -/

/-- One entry of the servers list. -/
structure ServerEntry where
  url : String
  description : String
deriving DecidableEq, Repr

/-- The bearer security-scheme shape used by the options. -/
structure SecurityScheme where
  type : String
  scheme : String
  bearerFormat : String
  description : String
deriving DecidableEq, Repr

/-- Response schema shapes the generator emits: either a component-schema
reference, or the composite paginated-list envelope (an allOf of the generic
envelope reference with a data array of item references and a pagination
reference) produced for array response types. -/
inductive RSchema where
  | ref (target : String)
  | listEnvelope (itemType : String)
deriving DecidableEq, Repr

/-- A response object: human description plus its application/json schema. -/
structure ApiResp where
  description : String
  schema : RSchema
deriving DecidableEq, Repr

/-- Values occurring inside the fixed example objects: strings or string
arrays. -/
inductive ExVal where
  | s (v : String)
  | arr (vs : List String)
deriving DecidableEq, Repr

/-- A literal example object (field name to value). -/
abbrev ExObj := List (String × ExVal)

/-- The requestBody object emitted for a route that declares a body type. -/
structure RequestBody where
  required : Bool
  schemaRef : String
  examples : Option (List (String × ExObj))
deriving DecidableEq, Repr

/-- One emitted operation parameter (the source's `in` field is `inLoc`;
the nested schema object is flattened into the three schema fields). -/
structure OpParam where
  name : String
  inLoc : String
  required : Bool
  description : String
  schemaType : String
  schemaEnum : Option (List String)
  schemaDefault : Option String
deriving DecidableEq, Repr

/-- One emitted operation.  The security requirement array is modelled by
the list of required scheme names; the responses object is an association
list whose values carry the looked-up default-response template when the
options provide one (a missing template still creates the key, as the
source's object assignment does). -/
structure Operation where
  tags : List String
  summary : String
  description : String
  operationId : String
  parameters : List OpParam
  responses : List (String × Option ApiResp)
  security : List String
  requestBody : Option RequestBody
deriving DecidableEq, Repr

/-- Generation options (interface `OpenAPIOptions`). -/
structure OpenAPIOptions where
  title : String
  description : String
  version : String
  servers : List ServerEntry
  securitySchemes : List (String × SecurityScheme)
  defaultResponses : List (String × ApiResp)
  includeExamples : Bool
deriving DecidableEq, Repr

/-- A partial option set, as accepted by `generateOpenAPISpec` (TypeScript
`Partial` with object spread: a provided field overrides the default). -/
structure PartialOpts where
  title : Option String := none
  description : Option String := none
  version : Option String := none
  servers : Option (List ServerEntry) := none
  securitySchemes : Option (List (String × SecurityScheme)) := none
  defaultResponses : Option (List (String × ApiResp)) := none
  includeExamples : Option Bool := none
deriving Repr

/-- Object spread of the defaults with the caller's partial options. -/
def mergeOptions (d : OpenAPIOptions) (p : PartialOpts) : OpenAPIOptions :=
  { title := p.title.getD d.title,
    description := p.description.getD d.description,
    version := p.version.getD d.version,
    servers := p.servers.getD d.servers,
    securitySchemes := p.securitySchemes.getD d.securitySchemes,
    defaultResponses := p.defaultResponses.getD d.defaultResponses,
    includeExamples := p.includeExamples.getD d.includeExamples }

/-- Constant `DEFAULT_OPTIONS` of openapi-generator.ts. -/
def DEFAULT_OPTIONS : OpenAPIOptions :=
  { title := "BlogV2 Backend API",
    description := "一个现代化的博客后端API，提供用户管理、文章发布、分类标签等功能。\n使用JWT令牌进行身份验证，支持基于角色的权限控制。",
    version := "1.0.0",
    servers :=
      [{ url := "http://localhost:3000/api/v1", description := "本地开发服务器" },
       { url := "https://api.example.com/api/v1", description := "生产服务器" }],
    securitySchemes :=
      [("bearerAuth",
        { type := "http", scheme := "bearer", bearerFormat := "JWT",
          description := "JWT令牌认证" })],
    defaultResponses :=
      [("200", { description := "成功响应", schema := RSchema.ref "#/components/schemas/ApiResponse" }),
       ("400", { description := "请求参数错误", schema := RSchema.ref "#/components/schemas/ApiError" }),
       ("401", { description := "未认证", schema := RSchema.ref "#/components/schemas/ApiError" }),
       ("403", { description := "权限不足", schema := RSchema.ref "#/components/schemas/ApiError" }),
       ("404", { description := "资源不存在", schema := RSchema.ref "#/components/schemas/ApiError" }),
       ("500", { description := "服务器内部错误", schema := RSchema.ref "#/components/schemas/ApiError" })],
    includeExamples := true }

/-! ## Generator functions -/

/-- Function `mapTypeToOpenAPI` of openapi-generator.ts. -/
def mapTypeToOpenAPI (typescriptType : String) : String :=
  if typescriptType = "string" then "string"
  else if typescriptType = "number" then "number"
  else if typescriptType = "integer" then "integer"
  else if typescriptType = "boolean" then "boolean"
  else if typescriptType = "Date" then "string"
  else if typescriptType = "string[]" then "array"
  else if typescriptType = "number[]" then "array"
  else if typescriptType = "boolean[]" then "array"
  else "string"

/-- Per-segment camel-casing of `generateOperationId`: a brace-wrapped
segment becomes the word By followed by the upper-cased first inner
character and the lower-cased remaining inner characters; any other segment
is kept as is in first position and first-letter-capitalised otherwise. -/
def camelPart (i : Nat) (part : String) : String :=
  if startsWithStr part "\x7b" && endsWithStr part "\x7d" then
    let inner := dropRightStr (dropStr part 1) 1
    "By" ++
      (match inner.data with
       | [] => ""
       | c :: _ => String.singleton (Char.toUpper c)) ++
      (toLowerStr (dropStr inner 1))
  else if i = 0 then part else upperFirstStr part

/-- Function `generateOperationId` of openapi-generator.ts: lower-cased verb
followed by the first-letter-capitalised concatenation of the camel-cased
non-empty path segments. -/
def generateOperationId (route : RouteInfo) : String :=
  let pathParts := (splitStrChar '/' route.path).filter (fun p => p ≠ "")
  let method := toLowerStr route.method
  let camelCasePath := joinAll (mapWithIdx camelPart pathParts)
  method ++ upperFirstStr camelCasePath

/-- Function `generateParametersFromRoute` of openapi-generator.ts: path
parameters (always required) followed by query parameters.  A falsy (empty)
recorded description or default value degrades exactly as the source's
truthiness checks do. -/
def generateParametersFromRoute (route : RouteInfo) : List OpParam :=
  route.pathParams.map (fun param =>
    { name := param.name,
      inLoc := "path",
      required := true,
      description := if param.description = "" then "路径参数: " ++ param.name else param.description,
      schemaType := mapTypeToOpenAPI param.type,
      schemaEnum := none,
      schemaDefault := none }) ++
  route.queryParams.map (fun param =>
    { name := param.name,
      inLoc := "query",
      required := param.required,
      description := if param.description = "" then "查询参数: " ++ param.name else param.description,
      schemaType := mapTypeToOpenAPI param.type,
      schemaEnum := param.enum,
      schemaDefault :=
        match param.defaultValue with
        | some d => if d = "" then none else some d
        | none => none })

/-- Function `generateExamples` of openapi-generator.ts: the example object
is filled from a fixed table keyed by schema name and returned only when
non-empty (an unknown name yields no example). -/
def generateExamples (schemaName : String) : Option (List (String × ExObj)) :=
  if schemaName = "CreateUserDto" then
    some [("example",
      [("username", ExVal.s "john_doe"),
       ("email", ExVal.s "john@example.com"),
       ("password", ExVal.s "password123"),
       ("avatar", ExVal.s "https://example.com/avatar.jpg"),
       ("bio", ExVal.s "一个热爱技术的开发者")])]
  else if schemaName = "LoginDto" then
    some [("example",
      [("email", ExVal.s "john@example.com"),
       ("password", ExVal.s "password123")])]
  else if schemaName = "CreatePostDto" then
    some [("example",
      [("title", ExVal.s "我的第一篇博客文章"),
       ("content", ExVal.s "这是文章内容，支持 **Markdown** 格式。"),
       ("excerpt", ExVal.s "文章摘要"),
       ("featuredImage", ExVal.s "https://example.com/image.jpg"),
       ("status", ExVal.s "PUBLISHED"),
       ("categoryIds", ExVal.arr ["cat_123", "cat_456"]),
       ("tagIds", ExVal.arr ["tag_123", "tag_456"])])]
  else if schemaName = "UpdatePostDto" then
    some [("example",
      [("title", ExVal.s "更新后的文章标题"),
       ("content", ExVal.s "更新后的文章内容..."),
       ("status", ExVal.s "PUBLISHED")])]
  else none

/-- Function `generateRequestBody` of openapi-generator.ts: a required JSON
body referencing the declared type as a component-schema pointer, with the
example table consulted unconditionally (a falsy declared type falls back to
CreateUserDto, as the source's default does). -/
def generateRequestBody (route : RouteInfo) : RequestBody :=
  let schemaName :=
    match route.requestBodyType with
    | some t => if t = "" then "CreateUserDto" else t
    | none => "CreateUserDto"
  { required := true,
    schemaRef := "#/components/schemas/" ++ schemaName,
    examples := generateExamples schemaName }

/-- Function `generateResponseSchema` of openapi-generator.ts. -/
def generateResponseSchema (route : RouteInfo) : RSchema :=
  match route.responseType with
  | some rt =>
      if rt = "User" then RSchema.ref "#/components/schemas/ApiResponseUser"
      else if rt = "Post" then RSchema.ref "#/components/schemas/ApiResponsePost"
      else if rt = "Category" then RSchema.ref "#/components/schemas/ApiResponseCategory"
      else if rt = "Tag" then RSchema.ref "#/components/schemas/ApiResponseTag"
      else if jsIncludes rt "[]" then RSchema.listEnvelope (replaceFirstStr rt "[]" "")
      else if rt = "AuthResponse" then RSchema.ref "#/components/schemas/AuthResponse"
      else RSchema.ref "#/components/schemas/ApiResponse"
  | none => RSchema.ref "#/components/schemas/ApiResponse"

/-- Function `generateResponsesFromRoute` of openapi-generator.ts: success
responses by verb convention, the 401/403 templates when the route requires
authentication, and the 500 template always. -/
def generateResponsesFromRoute (route : RouteInfo) (options : OpenAPIOptions) :
    List (String × Option ApiResp) :=
  let base : List (String × Option ApiResp) :=
    if route.method = "GET" then
      [("200", some { description := "成功获取数据", schema := generateResponseSchema route }),
       ("404", lookupKV options.defaultResponses "404")]
    else if route.method = "POST" then
      [("201", some { description := "资源创建成功", schema := generateResponseSchema route }),
       ("400", lookupKV options.defaultResponses "400")]
    else if route.method = "PUT" || route.method = "PATCH" then
      [("200", some { description := "资源更新成功", schema := generateResponseSchema route }),
       ("400", lookupKV options.defaultResponses "400"),
       ("404", lookupKV options.defaultResponses "404")]
    else if route.method = "DELETE" then
      [("200", some { description := "资源删除成功",
                      schema := RSchema.ref "#/components/schemas/ApiResponseMessage" }),
       ("404", lookupKV options.defaultResponses "404")]
    else []
  let withAuth :=
    if route.requiresAuth then
      base ++ [("401", lookupKV options.defaultResponses "401"),
               ("403", lookupKV options.defaultResponses "403")]
    else base
  withAuth ++ [("500", lookupKV options.defaultResponses "500")]

/-- Function `generateOperation` of openapi-generator.ts.  The role note is
appended to the description inside the authentication branch, exactly as in
the source. -/
def generateOperation (route : RouteInfo) (options : OpenAPIOptions) : Operation :=
  { tags := route.tags,
    summary := route.summary,
    description :=
      if route.requiresAuth && ! route.requiredRoles.isEmpty then
        route.description ++ "\n\n**所需角色:** " ++ joinSep ", " route.requiredRoles
      else route.description,
    operationId := generateOperationId route,
    parameters := generateParametersFromRoute route,
    responses := generateResponsesFromRoute route options,
    security := if route.requiresAuth then ["bearerAuth"] else [],
    requestBody :=
      match route.requestBodyType with
      | some t => if t = "" then none else some (generateRequestBody route)
      | none => none }

/-- The paths object: full path to (lower-cased verb to operation). -/
abbrev Paths := List (String × List (String × Operation))

/-- The loop body of `generatePaths`: get-or-create the path item for the
route's full path and assign its verb slot (an existing slot is silently
overwritten, as the source's object assignment does). -/
def addRoutePath (options : OpenAPIOptions) (paths : Paths) (route : RouteInfo) : Paths :=
  let fullPath := route.prefixValue ++ route.path
  let item := (lookupKV paths fullPath).getD []
  upsertKV paths fullPath (upsertKV item (toLowerStr route.method) (generateOperation route options))

/-- Function `generatePaths` of openapi-generator.ts. -/
def generatePaths (routes : List RouteInfo) (options : OpenAPIOptions) : Paths :=
  routes.foldl (addRoutePath options) []

/-- Adds a route under one tag key of the grouping (creating the key with an
empty list first, as the source does). -/
def pushTag (g : List (String × List RouteInfo)) (tag : String) (r : RouteInfo) :
    List (String × List RouteInfo) :=
  match g with
  | [] => [(tag, [r])]
  | (k, v) :: rest =>
      if k = tag then (k, v ++ [r]) :: rest else (k, v) :: pushTag rest tag r

/-- Function `groupRoutesByTag` of openapi-generator.ts. -/
def groupRoutesByTag (routes : List RouteInfo) : List (String × List RouteInfo) :=
  routes.foldl (fun g r => r.tags.foldl (fun g2 tag => pushTag g2 tag r) g) []

/-- The fixed tag-description table of `generateTags` with its generated
fallback (the table lookup uses the falsy-default operator; every table
value is a non-empty string, so the fallback fires exactly for unknown
tags). -/
def tagDescFor (t : String) : String :=
  if t = "用户" then "用户注册、登录和个人信息管理"
  else if t = "文章" then "文章的创建、读取、更新、删除和查询操作"
  else if t = "系统" then "系统健康检查和基本信息"
  else if t = "分类" then "分类的创建、读取、更新、删除和查询操作"
  else if t = "标签" then "标签的创建、读取、更新、删除和查询操作"
  else t ++ "相关操作"

/-- A top-level tag entry of the document. -/
structure TagEntry where
  name : String
  description : String
deriving DecidableEq, Repr

/-- Function `generateTags` of openapi-generator.ts: one entry per key of
the grouping, in key order. -/
def generateTags (routesByTag : List (String × List RouteInfo)) : List TagEntry :=
  routesByTag.map (fun kv => { name := kv.1, description := tagDescFor kv.1 })

/-- Placeholder for a component schema definition; `generateSchemas` emits
none at all, so this type has no role beyond typing the empty map. -/
structure SchemaDef where
  fields : List (String × String)
deriving DecidableEq, Repr

/-- Function `generateSchemas` of openapi-generator.ts: returns the empty
record (the source comments that real definitions could be copied from the
hand-written document, but it returns an empty object). -/
def generateSchemas : List (String × SchemaDef) := []

/-- Literal values inside the shared component parameters. -/
inductive JLit where
  | num (n : Nat)
  | str (s : String)
deriving DecidableEq, Repr

/-- One shared component parameter of `generateParameters`. -/
structure ComponentParam where
  name : String
  inLoc : String
  description : String
  required : Bool
  schemaType : String
  minimum : Option Nat := none
  maximum : Option Nat := none
  defaultVal : Option JLit := none
  enumVals : Option (List String) := none
deriving DecidableEq, Repr

/-- Function `generateParameters` of openapi-generator.ts. -/
def generateParameters : List (String × ComponentParam) :=
  [("pageQuery",
    { name := "page", inLoc := "query", description := "页码（默认1）",
      required := false, schemaType := "integer", minimum := some 1,
      defaultVal := some (JLit.num 1) }),
   ("pageSizeQuery",
    { name := "pageSize", inLoc := "query", description := "每页数量（默认10）",
      required := false, schemaType := "integer", minimum := some 1,
      maximum := some 100, defaultVal := some (JLit.num 10) }),
   ("sortByQuery",
    { name := "sortBy", inLoc := "query", description := "排序字段",
      required := false, schemaType := "string" }),
   ("sortOrderQuery",
    { name := "sortOrder", inLoc := "query", description := "排序顺序",
      required := false, schemaType := "string",
      enumVals := some ["asc", "desc"], defaultVal := some (JLit.str "desc") })]

/-- The info block of the document. -/
structure SpecInfo where
  title : String
  description : String
  version : String
  contactName : String
  contactEmail : String
  licenseName : String
  licenseUrl : String
deriving DecidableEq, Repr

/-- The components block of the document. -/
structure Components where
  securitySchemes : List (String × SecurityScheme)
  schemas : List (String × SchemaDef)
  parameters : List (String × ComponentParam)
deriving DecidableEq, Repr

/-- The synthesized OpenAPI document. -/
structure OpenApiSpec where
  openapi : String
  info : SpecInfo
  servers : List ServerEntry
  tags : List TagEntry
  paths : Paths
  components : Components
  security : List String
deriving DecidableEq, Repr

/-- Function `generateOpenAPISpec` of openapi-generator.ts: merges the
caller's partial options over the defaults and assembles the document. -/
def generateOpenAPISpec (routes : List RouteInfo) (options : PartialOpts) : OpenApiSpec :=
  let mergedOptions := mergeOptions DEFAULT_OPTIONS options
  { openapi := "3.0.3",
    info :=
      { title := mergedOptions.title,
        description := mergedOptions.description,
        version := mergedOptions.version,
        contactName := "API 支持",
        contactEmail := "support@example.com",
        licenseName := "MIT",
        licenseUrl := "https://opensource.org/licenses/MIT" },
    servers := mergedOptions.servers,
    tags := generateTags (groupRoutesByTag routes),
    paths := generatePaths routes mergedOptions,
    components :=
      { securitySchemes := mergedOptions.securitySchemes,
        schemas := generateSchemas,
        parameters := generateParameters },
    security := ["bearerAuth"] }

/-- All operations stored in a paths object, in storage order. -/
def opsOfPaths : Paths → List Operation
  | [] => []
  | kv :: rest => kv.2.map Prod.snd ++ opsOfPaths rest

/-- Keys of an association list. -/
def keysOf {α : Type} (l : List (String × α)) : List String :=
  l.map Prod.fst

/-! ## Concrete sample data used by the claim instances -/

/-- A minimal route record (a GET on the mount root with no comment-derived
data), the base for the concrete samples below. -/
def baseRoute : RouteInfo :=
  { path := "/", method := "GET", description := "", summary := "",
    requiresAuth := false, requiredRoles := [], requestBodyType := none,
    responseType := none, queryParams := [], pathParams := [],
    rawComment := "", handler := none, prefixValue := "/api/v1",
    tags := ["标签"] }

/-- First member of a duplicate (path, method) pair. -/
def dupRouteA : RouteInfo := { baseRoute with summary := "A" }

/-- Second member of a duplicate (path, method) pair. -/
def dupRouteB : RouteInfo := { baseRoute with summary := "B" }

/-- A GET route with an Express-style path parameter. -/
def colonIdRoute : RouteInfo := { baseRoute with path := "/:id" }

/-- A second route on the same Express-style path. -/
def colonIdRouteB : RouteInfo := { baseRoute with path := "/:id", summary := "B" }

/-- A GET route with an OpenAPI-style brace path parameter. -/
def braceIdRoute : RouteInfo := { baseRoute with path := "/\x7bid\x7d" }

/-- A registration line with no documentation comment before it. -/
def noCommentLine : String :=
  "router.get(\x27/all\x27, tagController.getAllTags.bind(tagController));"

/-- The route parsed from `noCommentLine` with an empty pending comment. -/
def noCommentRoute : RouteInfo :=
  { path := "/all", method := "GET", description := "无描述", summary := "无摘要",
    requiresAuth := false, requiredRoles := [], requestBodyType := none,
    responseType := none, queryParams := [], pathParams := [],
    rawComment := "", handler := some "tagController", prefixValue := "/api/v1",
    tags := ["标签"] }

/-- A route whose authorization call names roles but whose chain has no
authentication step (the authorize token does not contain the authenticate
token as a substring). -/
def roleOnlyRoute : RouteInfo :=
  { baseRoute with method := "DELETE", requiredRoles := ["ADMIN"] }

/-- The registration line of Scenario B: POST /batch with authentication,
two authorized roles and a bound handler. -/
def batchContent : String :=
  "router.post(\x27/batch\x27, authenticate, authorize(\x27EDITOR\x27,\x27ADMIN\x27), ctrl.create.bind(ctrl));"

/-- The single route the file scanner produces from `batchContent`. -/
def batchRoute : RouteInfo :=
  { path := "/batch", method := "POST", description := "无描述", summary := "无摘要",
    requiresAuth := true, requiredRoles := ["EDITOR", "ADMIN"],
    requestBodyType := none, responseType := none, queryParams := [],
    pathParams := [], rawComment := "", handler := some "ctrl",
    prefixValue := "/api/v1", tags := ["文章"] }

/-- Line 41 of src/routes/post-routes.ts: a public listing route guarded
only by the optional-authentication middleware. -/
def optAuthLine : String :=
  "router.get(\x27/\x27, optionalAuthenticate, postController.getPosts.bind(postController));"

/-- The route parsed from `optAuthLine` with an empty pending comment. -/
def optAuthRoute : RouteInfo :=
  { path := "/", method := "GET", description := "无描述", summary := "无摘要",
    requiresAuth := false, requiredRoles := [], requestBodyType := none,
    responseType := none, queryParams := [], pathParams := [],
    rawComment := "", handler := some "postController",
    prefixValue := "/api/v1/posts", tags := ["文章"] }

/-- A route declaring a request-body type that has an entry in the fixed
example table. -/
def bodyRoute : RouteInfo :=
  { baseRoute with method := "POST", requestBodyType := some "CreateUserDto" }

/-- The default options with example data switched off. -/
def optsNoEx : OpenAPIOptions :=
  mergeOptions DEFAULT_OPTIONS { includeExamples := some false }

/-- The 500 template of the default options. -/
def apiError500 : ApiResp :=
  { description := "服务器内部错误", schema := RSchema.ref "#/components/schemas/ApiError" }

/-- The comment line whose free text carries both the mandatory and the
optional markers. -/
def dualCmt : String :=
  "@param \x7bstring\x7d status 查询参数，必须为 PUBLISHED，可选值见文档"

/-- The query parameter parsed from `dualCmt`. -/
def dualQp : QueryParam :=
  { name := "status", type := "string",
    description := "查询参数，必须为 PUBLISHED，可选值见文档",
    required := true, defaultValue := none, enum := none }

/-- A comment line producing an ordinary required query parameter. -/
def pageCmt : String := "@param \x7bstring\x7d page 查询参数，页码"

/-- The query parameter parsed from `pageCmt`. -/
def pageQp : QueryParam :=
  { name := "page", type := "string", description := "查询参数，页码",
    required := true, defaultValue := none, enum := none }

/-! ## C1 — duplicate (path, method) pairs -/

/-- C1 counterexample: a corpus with two distinct routes sharing the
(prefix+path, method) pair synthesizes to a document identical to the one
obtained from the second route alone — the first route maps to no operation
(one operation for two routes) and no collision is recorded anywhere in the
output, refuting both the warning and the exactly-one-operation parts of the
claim. -/
theorem c1_counterexample :
    dupRouteA ≠ dupRouteB ∧
    generateOpenAPISpec [dupRouteA, dupRouteB] {} = generateOpenAPISpec [dupRouteB] {} ∧
    (opsOfPaths (generateOpenAPISpec [dupRouteA, dupRouteB] {}).paths).length = 1 := by
  refine ⟨by decide, by decide, by decide⟩

/-- C1 (corrected): when two consecutive routes share the full path key and
the lower-cased method, the synthesized paths object is the one of the later
route alone: the earlier route's operation is silently overwritten and the
collision is not reported. -/
theorem c1_amended (r1 r2 : RouteInfo) (opts : OpenAPIOptions)
    (hpath : r1.prefixValue ++ r1.path = r2.prefixValue ++ r2.path)
    (hmethod : toLowerStr r1.method = toLowerStr r2.method) :
    generatePaths [r1, r2] opts = generatePaths [r2] opts := by
  simp [generatePaths, addRoutePath, upsertKV, lookupKV, hpath, hmethod]

/-- C1 witness: the amended statement applied to the concrete duplicate
pair. -/
theorem c1_witness :
    dupRouteA.prefixValue ++ dupRouteA.path = dupRouteB.prefixValue ++ dupRouteB.path ∧
    toLowerStr dupRouteA.method = toLowerStr dupRouteB.method ∧
    generatePaths [dupRouteA, dupRouteB] DEFAULT_OPTIONS =
      generatePaths [dupRouteB] DEFAULT_OPTIONS :=
  ⟨by decide, by decide, c1_amended dupRouteA dupRouteB DEFAULT_OPTIONS (by decide) (by decide)⟩

/-! ## C2 — operation ids -/

/-- C2 counterexample: the GET route on the Express-style path /:id receives
operation id get:id, not the claimed getById — the By-transformation never
applies to colon segments. -/
theorem c2_counterexample :
    generateOperationId colonIdRoute = "get:id" ∧ "get:id" ≠ "getById" := by
  refine ⟨by decide, by decide⟩

/-- C2 (corrected): the operation id is the lower-cased verb followed by the
camel-cased path segments where only a brace-wrapped segment becomes a By
segment (a colon segment is kept literally, so GET /:id yields get:id while
GET on the brace path yields getById), and no uniqueness discriminator
exists: ids depend only on the route's path and method, so colliding routes
receive identical ids, both from the id generator and on the emitted
operations. -/
theorem c2_amended :
    (∀ r1 r2 : RouteInfo, r1.path = r2.path → r1.method = r2.method →
        generateOperationId r1 = generateOperationId r2) ∧
    (∀ (r1 r2 : RouteInfo) (opts : OpenAPIOptions), r1.path = r2.path → r1.method = r2.method →
        (generateOperation r1 opts).operationId = (generateOperation r2 opts).operationId) ∧
    generateOperationId colonIdRoute = "get:id" ∧
    generateOperationId braceIdRoute = "getById" := by
  have hid : ∀ r1 r2 : RouteInfo, r1.path = r2.path → r1.method = r2.method →
      generateOperationId r1 = generateOperationId r2 := by
    intro r1 r2 h1 h2
    simp only [generateOperationId, h1, h2]
  refine ⟨hid, ?_, by decide, by decide⟩
  intro r1 r2 opts h1 h2
  show generateOperationId r1 = generateOperationId r2
  exact hid r1 r2 h1 h2

/-- C2 witness: identical operation ids for the concrete colliding pair. -/
theorem c2_witness :
    colonIdRoute.path = colonIdRouteB.path ∧ colonIdRoute.method = colonIdRouteB.method ∧
    generateOperationId colonIdRoute = generateOperationId colonIdRouteB :=
  ⟨by decide, by decide, c2_amended.1 colonIdRoute colonIdRouteB (by decide) (by decide)⟩

/-! ## C3 — routes without a documentation comment -/

/-- C3 counterexample: the route parsed from a registration line with no
preceding comment carries the Chinese no-description / no-summary
placeholders, not the empty strings the claim requires. -/
theorem c3_counterexample :
    (parseRouteLine noCommentLine "" "/api/v1" ["标签"]).map RouteInfo.description =
      some "无描述" ∧
    (parseRouteLine noCommentLine "" "/api/v1" ["标签"]).map RouteInfo.description ≠
      some "" ∧
    (parseRouteLine noCommentLine "" "/api/v1" ["标签"]).map RouteInfo.summary ≠
      some "" := by
  refine ⟨by decide, by decide, by decide⟩

/-- C3 (corrected): whether a route record is produced does not depend on the
pending comment at all, and a route line parsed with the empty comment yields
a record whose summary and description are the fixed placeholders (never
null, never empty) and whose parameter lists are empty. -/
theorem c3_amended (line pv : String) (tags : List String) :
    (∀ c1 c2 : String,
        (parseRouteLine line c1 pv tags).isSome = (parseRouteLine line c2 pv tags).isSome) ∧
    (∀ r : RouteInfo, parseRouteLine line "" pv tags = some r →
        r.summary = "无摘要" ∧ r.description = "无描述" ∧
        r.queryParams = [] ∧ r.pathParams = []) := by
  constructor
  · intro c1 c2
    unfold parseRouteLine
    cases scanOpt matchVerbAt line.data
    · rfl
    · cases scanOpt matchPathAt line.data <;> rfl
  · intro r h
    unfold parseRouteLine at h
    cases hv : scanOpt matchVerbAt line.data <;> rw [hv] at h
    · exact absurd h (by simp)
    · cases hp : scanOpt matchPathAt line.data <;> rw [hp] at h
      · exact absurd h (by simp)
      · simp only [Option.some.injEq] at h
        subst h
        exact ⟨rfl, rfl, rfl, rfl⟩

/-- C3 witness: the amended statement at the concrete comment-less line. -/
theorem c3_witness :
    parseRouteLine noCommentLine "" "/api/v1" ["标签"] = some noCommentRoute ∧
    (noCommentRoute.summary = "无摘要" ∧ noCommentRoute.description = "无描述" ∧
     noCommentRoute.queryParams = [] ∧ noCommentRoute.pathParams = []) :=
  ⟨by decide, (c3_amended noCommentLine "/api/v1" ["标签"]).2 noCommentRoute (by decide)⟩

/-! ## C5 — Scenario B -/

/-- C5: the file scanner run on the POST /batch registration line produces
exactly one route with method POST, path /batch, requiresAuth true, required
roles exactly EDITOR then ADMIN (ordered, de-duplicated) and the handler name
ctrl taken from the bind suffix. -/
theorem c5_batch_route :
    parseRouteFileContent batchContent "post-routes.ts" = [batchRoute] := by
  decide

/-! ## C9 — optional authentication -/

/-- C9 counterexample: the optional-authentication registration line of
post-routes.ts parses with requiresAuth false, not the claimed true — the
case-sensitive substring test for the authentication token does not match
inside the optional middleware's camel-cased name. -/
theorem c9_counterexample :
    (parseRouteLine optAuthLine "" "/api/v1/posts" ["文章"]).map RouteInfo.requiresAuth =
      some false := by
  decide

/-- C9 (corrected): the optional-authentication line contains the
optionalAuthenticate token but not the lower-case authenticate token, so the
substring-based detection yields requiresAuth false for every parse of this
line (with any pending comment, prefix and tags). -/
theorem c9_amended :
    jsIncludes optAuthLine "optionalAuthenticate" = true ∧
    jsIncludes optAuthLine "authenticate" = false ∧
    ∀ (c pv : String) (tags : List String) (r : RouteInfo),
      parseRouteLine optAuthLine c pv tags = some r → r.requiresAuth = false := by
  refine ⟨by decide, by decide, ?_⟩
  intro c pv tags r h
  have h1 : (parseRouteLine optAuthLine c pv tags).map RouteInfo.requiresAuth = some false := rfl
  rw [h] at h1
  simpa using h1

/-- C9 witness: the amended statement at the concrete empty comment. -/
theorem c9_witness :
    parseRouteLine optAuthLine "" "/api/v1/posts" ["文章"] = some optAuthRoute ∧
    optAuthRoute.requiresAuth = false :=
  ⟨by decide, c9_amended.2.2 "" "/api/v1/posts" ["文章"] optAuthRoute (by decide)⟩

/-! ## C4 — error response templates -/

/-- C4 counterexample: a route with a non-empty role list but no
authentication step receives neither the 401 nor the 403 template, although
the claim requires both whenever the role list is non-empty. -/
theorem c4_counterexample :
    roleOnlyRoute.requiredRoles ≠ [] ∧
    roleOnlyRoute.requiresAuth = false ∧
    lookupKV (generateResponsesFromRoute roleOnlyRoute DEFAULT_OPTIONS) "401" = none ∧
    lookupKV (generateResponsesFromRoute roleOnlyRoute DEFAULT_OPTIONS) "403" = none := by
  refine ⟨by decide, by decide, by decide, by decide⟩

/-- C4 (corrected): every response map carries the 500 key; the 401 and 403
keys are present exactly when the route's requiresAuth flag is true — the
role list alone does not add them — and the 400 key is present exactly for
the verbs POST, PUT and PATCH. -/
theorem c4_amended (r : RouteInfo) (opts : OpenAPIOptions) :
    (lookupKV (generateResponsesFromRoute r opts) "500").isSome = true ∧
    (lookupKV (generateResponsesFromRoute r opts) "401").isSome = r.requiresAuth ∧
    (lookupKV (generateResponsesFromRoute r opts) "403").isSome = r.requiresAuth ∧
    (lookupKV (generateResponsesFromRoute r opts) "400").isSome =
      (r.method == "POST" || r.method == "PUT" || r.method == "PATCH") := by
  unfold generateResponsesFromRoute
  by_cases ha : r.requiresAuth <;>
    by_cases h1 : r.method = "GET" <;>
    by_cases h2 : r.method = "POST" <;>
    by_cases h3 : r.method = "PUT" <;>
    by_cases h4 : r.method = "PATCH" <;>
    by_cases h5 : r.method = "DELETE" <;>
    simp_all [lookupKV]

/-! ## C6 — the optional marker and the required flag -/

/-- Membership in an appended singleton splits. -/
theorem mem_append_singleton {α : Type} {x y : α} {l : List α}
    (h : x ∈ l ++ [y]) : x ∈ l ∨ x = y := by
  rcases List.mem_append.1 h with h1 | h1
  · exact Or.inl h1
  · exact Or.inr (List.mem_singleton.1 h1)

/-- The narrative-line check leaves the query parameters unchanged. -/
theorem applyDescLine_queryParams (st : CommentState) (t : String) :
    (applyDescLine st t).queryParams = st.queryParams := by
  unfold applyDescLine
  split <;> rfl

/-- The request-body check leaves the query parameters unchanged. -/
theorem applyReqBodyTag_queryParams (st : CommentState) (t : String) :
    (applyReqBodyTag st t).queryParams = st.queryParams := by
  unfold applyReqBodyTag
  split
  · split <;> rfl
  · rfl

/-- The returns check leaves the query parameters unchanged. -/
theorem applyReturnsTag_queryParams (st : CommentState) (t : String) :
    (applyReturnsTag st t).queryParams = st.queryParams := by
  unfold applyReturnsTag
  split
  · split <;> rfl
  · rfl

/-- The parameter-tag check preserves the required-flag invariant: the only
query parameter it can add carries the source's required rule applied to its
own free text. -/
theorem applyParamTag_req_inv (st : CommentState) (t : String)
    (h : ∀ qp ∈ st.queryParams, qp.required = reqOf qp.description) :
    ∀ qp ∈ (applyParamTag st t).queryParams, qp.required = reqOf qp.description := by
  intro qp hqp
  unfold applyParamTag at hqp
  repeat' split at hqp
  all_goals try dsimp only at hqp
  all_goals
    first
      | exact h qp hqp
      | (rcases mem_append_singleton hqp with h1 | h1
         · exact h qp h1
         · subst h1; rfl)

/-- One comment-loop step preserves the required-flag invariant of the
accumulated query parameters. -/
theorem commentStep_req_inv (st : CommentState) (line : String)
    (h : ∀ qp ∈ st.queryParams, qp.required = reqOf qp.description) :
    ∀ qp ∈ (commentStep st line).queryParams, qp.required = reqOf qp.description := by
  intro qp hqp
  unfold commentStep at hqp
  dsimp only at hqp
  split at hqp
  · exact h qp hqp
  · rw [applyReturnsTag_queryParams, applyReqBodyTag_queryParams] at hqp
    refine applyParamTag_req_inv _ _ ?_ qp hqp
    intro q hq
    rw [applyDescLine_queryParams] at hq
    exact h q hq

/-- The comment-line fold preserves the required-flag invariant. -/
theorem foldl_req_inv (lines : List String) (st : CommentState)
    (h : ∀ qp ∈ st.queryParams, qp.required = reqOf qp.description) :
    ∀ qp ∈ (lines.foldl commentStep st).queryParams, qp.required = reqOf qp.description := by
  induction lines generalizing st with
  | nil => exact h
  | cons l ls ih => exact ih (commentStep st l) (commentStep_req_inv st l h)

/-- C6 (corrected): every query parameter produced by the comment semantics
has its required flag equal to the source's rule — true when the free text
contains a mandatory marker or does not contain the optional marker — so a
mandatory marker overrides the optional marker rather than required being
the pure negation of the optional marker. -/
theorem c6_amended (comment : String) (qp : QueryParam)
    (h : qp ∈ (parseComment comment).queryParams) :
    qp.required = reqOf qp.description := by
  unfold parseComment at h
  split at h
  · simp at h
  · dsimp only at h
    exact foldl_req_inv (splitStrChar '\n' comment) initCommentState
      (by simp [initCommentState]) qp h

/-- C6 counterexample: a query parameter whose description contains the
optional marker is nevertheless parsed as required because the description
also contains the mandatory marker, refuting the claimed equivalence between
required and the absence of the optional marker. -/
theorem c6_counterexample :
    (parseComment dualCmt).queryParams = [dualQp] ∧
    jsIncludes dualQp.description "可选" = true ∧
    dualQp.required = true := by
  refine ⟨by decide, by decide, by decide⟩

/-- C6 witness: the amended statement at the concrete comment line. -/
theorem c6_witness :
    pageQp ∈ (parseComment pageCmt).queryParams ∧
    pageQp.required = reqOf pageQp.description :=
  ⟨by decide, c6_amended pageCmt pageQp (by decide)⟩

/-! ## C7 — request bodies and the example table -/

/-- C7 counterexample: with example data disabled by the options, a route
declaring a table-known body type still receives a literal example object —
the includeExamples option is never consulted. -/
theorem c7_counterexample :
    optsNoEx.includeExamples = false ∧
    ((generateOperation bodyRoute optsNoEx).requestBody.map
      (fun rb => rb.examples.isSome)) = some true := by
  refine ⟨by decide, by decide⟩

/-- C7 (corrected): a route declaring a non-empty request-body type always
emits a request body referencing that type as a component-schema pointer,
with a literal example attached exactly when the type name is in the fixed
four-entry example table — independently of the options, in particular of
includeExamples — and a name absent from the table simply yields no
example. -/
theorem c7_amended (r : RouteInfo) (opts : OpenAPIOptions) (t : String)
    (hrt : r.requestBodyType = some t) (ht : t ≠ "") :
    (generateOperation r opts).requestBody = some (generateRequestBody r) ∧
    (generateRequestBody r).schemaRef = "#/components/schemas/" ++ t ∧
    (generateRequestBody r).examples.isSome =
      (t == "CreateUserDto" || t == "LoginDto" || t == "CreatePostDto" || t == "UpdatePostDto") := by
  refine ⟨?_, ?_, ?_⟩
  · show (match r.requestBodyType with
      | some t => if t = "" then none else some (generateRequestBody r)
      | none => none) = some (generateRequestBody r)
    rw [hrt]
    simp [ht]
  · unfold generateRequestBody
    rw [hrt]
    simp [ht]
  · unfold generateRequestBody generateExamples
    rw [hrt]
    by_cases e1 : t = "CreateUserDto" <;>
      by_cases e2 : t = "LoginDto" <;>
      by_cases e3 : t = "CreatePostDto" <;>
      by_cases e4 : t = "UpdatePostDto" <;>
      simp_all [ht]

/-- C7 witness: the amended statement at the concrete body route under the
options with example data disabled. -/
theorem c7_witness :
    bodyRoute.requestBodyType = some "CreateUserDto" ∧
    ((generateOperation bodyRoute optsNoEx).requestBody = some (generateRequestBody bodyRoute) ∧
     (generateRequestBody bodyRoute).schemaRef = "#/components/schemas/" ++ "CreateUserDto" ∧
     (generateRequestBody bodyRoute).examples.isSome =
       ("CreateUserDto" == "CreateUserDto" || "CreateUserDto" == "LoginDto" ||
        "CreateUserDto" == "CreatePostDto" || "CreateUserDto" == "UpdatePostDto")) :=
  ⟨by decide, c7_amended bodyRoute optsNoEx "CreateUserDto" (by decide) (by decide)⟩

/-! ## C8 — no dangling tag references -/

/-- The values of an upserted association list are the old values or the new
value. -/
theorem mem_snd_upsertKV {α : Type} {l : List (String × α)} {k : String} {v x : α}
    (h : x ∈ (upsertKV l k v).map Prod.snd) : x ∈ l.map Prod.snd ∨ x = v := by
  induction l with
  | nil => simpa [upsertKV] using h
  | cons hd tl ih =>
      obtain ⟨a, b⟩ := hd
      unfold upsertKV at h
      split at h
      · simp only [List.map_cons, List.mem_cons] at h ⊢
        tauto
      · simp only [List.map_cons, List.mem_cons] at h ⊢
        rcases h with h1 | h1
        · tauto
        · rcases ih h1 with h2 | h2 <;> tauto

/-- Every operation of a looked-up path item occurs in the paths object. -/
theorem lookup_ops_sub {paths : Paths} {k : String} {item : List (String × Operation)}
    (h : lookupKV paths k = some item) :
    ∀ x ∈ item.map Prod.snd, x ∈ opsOfPaths paths := by
  induction paths with
  | nil => simp [lookupKV] at h
  | cons hd tl ih =>
      obtain ⟨a, b⟩ := hd
      unfold lookupKV at h
      split at h
      · obtain rfl := Option.some.inj h
        intro x hx
        exact List.mem_append.2 (Or.inl hx)
      · intro x hx
        exact List.mem_append.2 (Or.inr (ih h x hx))

/-- Operations of a paths object after an upsert come from the old object or
from the upserted item. -/
theorem opsOfPaths_upsert {paths : Paths} {k : String}
    {item : List (String × Operation)} {x : Operation}
    (h : x ∈ opsOfPaths (upsertKV paths k item)) :
    x ∈ opsOfPaths paths ∨ x ∈ item.map Prod.snd := by
  induction paths with
  | nil =>
      right
      simp only [upsertKV, opsOfPaths, List.append_nil] at h
      exact h
  | cons hd tl ih =>
      obtain ⟨a, b⟩ := hd
      unfold upsertKV at h
      split at h
      · unfold opsOfPaths at h
        rcases List.mem_append.1 h with h1 | h1
        · exact Or.inr h1
        · exact Or.inl (List.mem_append.2 (Or.inr h1))
      · unfold opsOfPaths at h
        rcases List.mem_append.1 h with h1 | h1
        · exact Or.inl (List.mem_append.2 (Or.inl h1))
        · rcases ih h1 with h2 | h2
          · exact Or.inl (List.mem_append.2 (Or.inr h2))
          · exact Or.inr h2

/-- One step of the path assembly adds only the new route's operation. -/
theorem mem_ops_addRoutePath {opts : OpenAPIOptions} {paths : Paths}
    {r : RouteInfo} {x : Operation}
    (h : x ∈ opsOfPaths (addRoutePath opts paths r)) :
    x ∈ opsOfPaths paths ∨ x = generateOperation r opts := by
  unfold addRoutePath at h
  dsimp only at h
  rcases opsOfPaths_upsert h with h1 | h1
  · exact Or.inl h1
  · rcases mem_snd_upsertKV h1 with h2 | h2
    · cases hl : lookupKV paths (r.prefixValue ++ r.path) with
      | none => rw [hl] at h2; simp at h2
      | some item => rw [hl] at h2; exact Or.inl (lookup_ops_sub hl x h2)
    · exact Or.inr h2

/-- Every operation of the assembled paths object is the operation of one of
the routes (no operation appears from nowhere). -/
theorem generatePaths_ops {opts : OpenAPIOptions} :
    ∀ (routes : List RouteInfo) (acc : Paths) (x : Operation),
      x ∈ opsOfPaths (routes.foldl (addRoutePath opts) acc) →
      x ∈ opsOfPaths acc ∨ ∃ r ∈ routes, x = generateOperation r opts := by
  intro routes
  induction routes with
  | nil => intro acc x h; exact Or.inl h
  | cons r rs ih =>
      intro acc x h
      rcases ih (addRoutePath opts acc r) x h with h1 | h1
      · rcases mem_ops_addRoutePath h1 with h2 | h2
        · exact Or.inl h2
        · exact Or.inr ⟨r, List.mem_cons_self r rs, h2⟩
      · obtain ⟨r2, hr2, hx⟩ := h1
        exact Or.inr ⟨r2, List.mem_cons.2 (Or.inr hr2), hx⟩

/-- Pushing a route under a tag keeps every existing key. -/
theorem keysOf_pushTag_super {g : List (String × List RouteInfo)} {tag : String}
    {r : RouteInfo} {k : String}
    (h : k ∈ keysOf g) : k ∈ keysOf (pushTag g tag r) := by
  induction g with
  | nil => simp [keysOf] at h
  | cons hd tl ih =>
      obtain ⟨a, b⟩ := hd
      unfold pushTag
      split
      · simpa [keysOf] using h
      · simp only [keysOf, List.map_cons, List.mem_cons] at h ⊢
        rcases h with h1 | h1
        · exact Or.inl h1
        · exact Or.inr (ih h1)

/-- Pushing a route under a tag makes the tag a key. -/
theorem keysOf_pushTag_self (g : List (String × List RouteInfo)) (tag : String)
    (r : RouteInfo) : tag ∈ keysOf (pushTag g tag r) := by
  induction g with
  | nil => simp [pushTag, keysOf]
  | cons hd tl ih =>
      obtain ⟨a, b⟩ := hd
      unfold pushTag
      split
      · next heq => simp [keysOf, heq]
      · simp only [keysOf, List.map_cons, List.mem_cons]
        exact Or.inr ih

/-- The per-route tag fold keeps every existing key. -/
theorem keysOf_innerFold_super (tags : List String) (r : RouteInfo) :
    ∀ (g : List (String × List RouteInfo)) (k : String), k ∈ keysOf g →
      k ∈ keysOf (tags.foldl (fun g2 tg => pushTag g2 tg r) g) := by
  induction tags with
  | nil => intro g k h; exact h
  | cons t ts ih => intro g k h; exact ih (pushTag g t r) k (keysOf_pushTag_super h)

/-- The per-route tag fold records every tag of the route as a key. -/
theorem keysOf_innerFold_mem (r : RouteInfo) :
    ∀ (tags : List String) (t : String), t ∈ tags →
      ∀ g, t ∈ keysOf (tags.foldl (fun g2 tg => pushTag g2 tg r) g) := by
  intro tags
  induction tags with
  | nil => intro t ht g; simp at ht
  | cons hd ts ih =>
      intro t ht g
      rcases List.mem_cons.1 ht with rfl | h1
      · exact keysOf_innerFold_super ts r (pushTag g t r) t (keysOf_pushTag_self g t r)
      · exact ih t h1 (pushTag g hd r)

/-- The corpus fold keeps every existing key. -/
theorem keysOf_outerFold_super (routes : List RouteInfo) :
    ∀ (g : List (String × List RouteInfo)) (k : String), k ∈ keysOf g →
      k ∈ keysOf (routes.foldl
        (fun g2 r => r.tags.foldl (fun g3 tg => pushTag g3 tg r) g2) g) := by
  induction routes with
  | nil => intro g k h; exact h
  | cons r rs ih =>
      intro g k h
      exact ih _ k (keysOf_innerFold_super r.tags r g k h)

/-- Auxiliary form of the grouping-key lemma with an explicit accumulator. -/
theorem groupRoutes_keys_aux (r : RouteInfo) (t : String) (ht : t ∈ r.tags) :
    ∀ routes : List RouteInfo, r ∈ routes →
      ∀ acc, t ∈ keysOf (routes.foldl
        (fun g r2 => r2.tags.foldl (fun g2 tag => pushTag g2 tag r2) g) acc) := by
  intro routes
  induction routes with
  | nil => intro hr; simp at hr
  | cons r2 rs ih =>
      intro hr acc
      rcases List.mem_cons.1 hr with rfl | h1
      · exact keysOf_outerFold_super rs _ t (keysOf_innerFold_mem r r.tags t ht acc)
      · exact ih h1 (r2.tags.foldl (fun g2 tag => pushTag g2 tag r2) acc)

/-- Every tag of every route of the corpus is a key of the grouping. -/
theorem groupRoutes_keys (routes : List RouteInfo) (r : RouteInfo) (t : String)
    (hr : r ∈ routes) (ht : t ∈ r.tags) : t ∈ keysOf (groupRoutesByTag routes) :=
  groupRoutes_keys_aux r t ht routes hr []

/-- Every key of the grouping receives a tag entry with its table or fallback
description. -/
theorem generateTags_mem {g : List (String × List RouteInfo)} {t : String}
    (h : t ∈ keysOf g) :
    ∃ e ∈ generateTags g, e.name = t ∧ e.description = tagDescFor t := by
  unfold keysOf at h
  rcases List.mem_map.1 h with ⟨kv, hkv, hfst⟩
  refine ⟨{ name := kv.1, description := tagDescFor kv.1 }, ?_, ?_, ?_⟩
  · exact List.mem_map.2 ⟨kv, hkv, rfl⟩
  · exact hfst
  · rw [hfst]

/-- C8: every tag name occurring on any operation of the synthesized document
also occurs as a top-level tag entry carrying the fixed-table description or
the generated fallback description — there are no dangling tag references. -/
theorem c8_no_dangling_tags (routes : List RouteInfo) (p : PartialOpts)
    (op : Operation) (t : String)
    (hop : op ∈ opsOfPaths (generateOpenAPISpec routes p).paths)
    (ht : t ∈ op.tags) :
    ∃ e ∈ (generateOpenAPISpec routes p).tags,
      e.name = t ∧ e.description = tagDescFor t := by
  have hop2 : op ∈ opsOfPaths (generatePaths routes (mergeOptions DEFAULT_OPTIONS p)) := hop
  rcases generatePaths_ops routes [] op hop2 with h1 | h1
  · simp [opsOfPaths] at h1
  · obtain ⟨r, hr, rfl⟩ := h1
    have htag : t ∈ r.tags := ht
    exact generateTags_mem (groupRoutes_keys routes r t hr htag)

/-- C8 witness: the statement at a concrete one-route corpus. -/
theorem c8_witness :
    (generateOperation baseRoute (mergeOptions DEFAULT_OPTIONS {}) ∈
        opsOfPaths (generateOpenAPISpec [baseRoute] {}).paths) ∧
    ("标签" ∈ (generateOperation baseRoute (mergeOptions DEFAULT_OPTIONS {})).tags) ∧
    ∃ e ∈ (generateOpenAPISpec [baseRoute] {}).tags,
      e.name = "标签" ∧ e.description = tagDescFor "标签" :=
  ⟨by decide, by decide,
   c8_no_dangling_tags [baseRoute] {}
     (generateOperation baseRoute (mergeOptions DEFAULT_OPTIONS {})) "标签"
     (by decide) (by decide)⟩

/-! ## C10 — the empty component-schema map -/

/-- C10: for every corpus and every option set the synthesized document's
component-schema map is empty (no name is defined in it), while every
operation's response map still emits a 500 response referencing the ApiError
component schema under the default options — so every such reference points
to a component that is not defined anywhere in the document. -/
theorem c10_empty_schemas (routes : List RouteInfo) (p : PartialOpts) (r : RouteInfo) :
    (generateOpenAPISpec routes p).components.schemas = [] ∧
    (∀ name : String, name ∉ keysOf (generateOpenAPISpec routes p).components.schemas) ∧
    lookupKV (generateResponsesFromRoute r DEFAULT_OPTIONS) "500" = some (some apiError500) ∧
    apiError500.schema = RSchema.ref "#/components/schemas/ApiError" := by
  refine ⟨rfl, ?_, ?_, rfl⟩
  · intro name hname
    simp [generateOpenAPISpec, generateSchemas, keysOf] at hname
  · unfold generateResponsesFromRoute
    by_cases ha : r.requiresAuth <;>
      by_cases h1 : r.method = "GET" <;>
      by_cases h2 : r.method = "POST" <;>
      by_cases h3 : r.method = "PUT" <;>
      by_cases h4 : r.method = "PATCH" <;>
      by_cases h5 : r.method = "DELETE" <;>
      simp_all [lookupKV, DEFAULT_OPTIONS, apiError500]

end Blog
